import Mathlib

/-!
Verification of `IPython/kernel/clientconnector.py` (resilient client
connector): descriptor resolution (`_find_furl`), connection caching
(`get_reference` / `_save_ref`), retry with exponential backoff
(`_try_to_connect`), error consolidation (`_handle_error`), client adaptation
(`_wrap_remote_reference`), the cluster lifecycle state machine
(`AsyncCluster.start` / `stop`), and the positional-argument forwarding of the
blocking `ClientConnector.get_client`.

Conventions of the embedding: remote capabilities and Tub (session) objects
are identified by `Nat` ids; Python exceptions become an inductive `Exc`;
float arithmetic on delays is modelled over `ℚ` (1.5 is exact, so the
geometric recurrence is preserved); Twisted deferreds become `Except Exc`
results with external effects (the tub, the launcher, the remote call, the
file system) passed in as explicit functions.
-/

set_option autoImplicit false

namespace ClientConnector

/-! ### String containment (used to state facts about error messages) -/

/-- `isPrefixOfList pat l` decides whether `pat` is a prefix of `l`. -/
def isPrefixOfList : List Char → List Char → Bool
  | [], _ => true
  | _ :: _, [] => false
  | a :: as, b :: bs => a == b && isPrefixOfList as bs

/-- `containsSeg pat l` decides whether `pat` occurs contiguously inside `l`. -/
def containsSeg (pat : List Char) : List Char → Bool
  | [] => isPrefixOfList pat []
  | c :: cs => isPrefixOfList pat (c :: cs) || containsSeg pat cs

/-- `strContains s pat` decides whether `pat` is a substring of `s`. -/
def strContains (s pat : String) : Bool :=
  containsSeg pat.data s.data

/-! ### Error taxonomy

Python exception classes appearing in (or raised by collaborators of)
`clientconnector.py`.  `connFail` stands for an arbitrary underlying
connection failure from `tub.getReference`, identified by an opaque code. -/

inductive Exc where
  | connFail (code : Nat)
  | furlError (msg : String)
  | clientConnectorError (msg : String)
  | clusterStateError (msg : String)
  | adapterResolutionError (name : String)
  | remoteError (code : Nat)
deriving DecidableEq

/-! ### Retry Orchestrator: `AsyncClientConnector._try_to_connect`

One connection attempt (find the FURL, then get the reference) is abstracted
as `env : Nat → Except Exc Nat`, mapping the attempt index to its outcome
(the code re-runs `find_furl` and `get_reference` afresh on every attempt, so
the outcome legitimately depends on the attempt index).  The result records
the delays slept between attempts and the number of attempts performed. -/

/-- The message of the `ClientConnectorError` raised when
`attempt < max_tries` fails at loop entry (Python `%r` of an int is its
decimal representation). -/
def max_tries_msg (max_tries : Int) : String :=
  "Could not connect to controller, max_tries (" ++ toString max_tries ++
  ") exceeded. This usually means that i) the controller was not started, " ++
  "or ii) a firewall was blocking the client from connecting " ++
  "to the controller."

/-- Outcome of `_try_to_connect`: the final result, the list of delays slept
(in order), and how many connection attempts were performed. -/
structure RetryResult where
  result : Except Exc Nat
  sleeps : List ℚ
  attempts : Nat

/-- `AsyncClientConnector._try_to_connect(furl_or_file, delay, max_tries,
attempt)`: if `attempt < max_tries`, perform one attempt; on success return
the reference; on failure re-raise if this was the last allowed attempt
(`attempt == max_tries - 1`), otherwise sleep `delay` and recurse with
`1.5*delay` and `attempt+1`; if `attempt >= max_tries`, raise
`ClientConnectorError` (max_tries exceeded). -/
def try_to_connect (env : Nat → Except Exc Nat) (delay : ℚ)
    (max_tries attempt : Int) : RetryResult :=
  if _h : attempt < max_tries then
    match env attempt.toNat with
    | .ok rr => { result := .ok rr, sleeps := [], attempts := 1 }
    | .error e =>
      if attempt = max_tries - 1 then
        { result := .error e, sleeps := [], attempts := 1 }
      else
        let r := try_to_connect env (1.5 * delay) max_tries (attempt + 1)
        { result := r.result, sleeps := delay :: r.sleeps,
          attempts := r.attempts + 1 }
  else
    { result := .error (.clientConnectorError (max_tries_msg max_tries)),
      sleeps := [], attempts := 0 }
termination_by (max_tries - attempt).toNat
decreasing_by omega

/-! ### Connection Cache: `AsyncClientConnector.get_reference` / `_save_ref`

The `_remote_refs` dict is embedded as an association list (lookup finds the
most recently inserted binding); `connects` counts the underlying
`tub.getReference` calls.  The tub's behavior for the current call is passed
in as `tubGet`. -/

/-- The mutable state of an `AsyncClientConnector`: the `_remote_refs` cache
and a count of underlying `tub.getReference` calls performed so far. -/
structure ConnectorState where
  remote_refs : List (String × Nat)
  connects : Nat

/-- `AsyncClientConnector._save_ref(ref, furl)`: cache a remote reference by
its furl. -/
def save_ref (st : ConnectorState) (ref : Nat) (furl : String) :
    ConnectorState :=
  { st with remote_refs := (furl, ref) :: st.remote_refs }

/-- `AsyncClientConnector.get_reference(furl_or_file)`: return the cached
reference if present; otherwise call `tub.getReference` and, on success,
cache the result via `_save_ref`.  Returns the result together with the
updated state. -/
def get_reference (tubGet : String → Except Exc Nat) (st : ConnectorState)
    (furl : String) : Except Exc Nat × ConnectorState :=
  match st.remote_refs.lookup furl with
  | some ref => (.ok ref, st)
  | none =>
    match tubGet furl with
    | .ok ref =>
      (.ok ref, save_ref { st with connects := st.connects + 1 } ref furl)
    | .error e => (.error e, { st with connects := st.connects + 1 })

/-- Run a sequence of `get_reference` calls (each with its own tub behavior
and furl), threading the connector state. -/
def run_ops (st : ConnectorState)
    (ops : List ((String → Except Exc Nat) × String)) : ConnectorState :=
  ops.foldl (fun s op => (get_reference op.1 s op.2).2) st

/-! ### Descriptor Resolver: `AsyncClientConnector._find_furl`

The collaborators from `fcutil` / `clusterdir` (`is_valid_furl_or_file`,
`ClusterDir.find_cluster_dir`, `ClusterDir.find_cluster_dir_by_profile`,
`validate_furl_or_file`, `get_ipython_dir`) are opaque environment
functions; `find_cluster_dir*` return the `security_dir` of the located
cluster directory, or raise.  The returned list records which resolution
strategies were actually attempted, in order. -/

/-- Environment of `_find_furl`: the external helpers it calls. -/
structure FurlEnv where
  is_valid_furl_or_file : String → Bool
  find_cluster_dir : String → Except Exc String
  find_cluster_dir_by_profile : String → String → Except Exc String
  validate_furl_or_file : String → Except Exc Unit
  default_ipython_dir : String

/-- The three resolution strategies of `_find_furl`, in document order. -/
inductive Strategy where
  | byFurlOrFile
  | byClusterDir
  | byProfile
deriving DecidableEq

/-- `os.path.join(sdir, name)` for the paths built in `_find_furl`. -/
def path_join (sdir name : String) : String :=
  sdir ++ "/" ++ name

/-- Strategies 2-4 of `_find_furl` (everything after the `furl_or_file`
check): fail if `furl_file_name` is absent; else try `cluster_dir`; else try
the profile lookup (with `ipython_dir` defaulted); else raise `FURLError`. -/
def find_furl_rest (env : FurlEnv) (profile cluster_dir : Option String)
    (furl_file_name ipython_dir : Option String) (tried : List Strategy) :
    Except Exc String × List Strategy :=
  match furl_file_name with
  | none =>
    (.error (.furlError
      "A furl_file_name must be provided if furl_or_file is not"), tried)
  | some ffn =>
    match cluster_dir with
    | some cd =>
      (do
        let sdir ← env.find_cluster_dir cd
        let furl_file := path_join sdir ffn
        let _ ← env.validate_furl_or_file furl_file
        pure furl_file,
       tried ++ [.byClusterDir])
    | none =>
      let idir := ipython_dir.getD env.default_ipython_dir
      match profile with
      | some p =>
        (do
          let sdir ← env.find_cluster_dir_by_profile idir p
          let furl_file := path_join sdir ffn
          let _ ← env.validate_furl_or_file furl_file
          pure furl_file,
         tried ++ [.byProfile])
      | none => (.error (.furlError "Could not find a valid FURL file."), tried)

/-- `AsyncClientConnector._find_furl(profile, cluster_dir, furl_or_file,
furl_file_name, ipython_dir)`: strategy 1 uses `furl_or_file` when present
and valid; otherwise control falls through to the remaining strategies. -/
def find_furl (env : FurlEnv) (profile cluster_dir : Option String)
    (furl_or_file furl_file_name ipython_dir : Option String) :
    Except Exc String × List Strategy :=
  match furl_or_file with
  | some f =>
    if env.is_valid_furl_or_file f then (.ok f, [.byFurlOrFile])
    else
      find_furl_rest env profile cluster_dir furl_file_name ipython_dir
        [.byFurlOrFile]
  | none => find_furl_rest env profile cluster_dir furl_file_name ipython_dir []

/-! ### Client Adapter: `get_client`'s `_wrap_remote_reference` -/

/-- The typed client produced by the adapter: the resolved interface name,
the remote reference it was constructed from, and the tub attached to it. -/
structure TypedClient where
  interface : String
  ref : Nat
  tub : Option Nat
deriving DecidableEq

/-- Modelled from the spec: `import_item` (from `IPython.utils.importstring`,
not part of the excerpt) resolves a fully-qualified type name to a local
type, failing with an `AdapterResolutionError` when the name is unresolvable
locally.  A successful resolution is the name of the resolved type. -/
def ImportRegistry : Type := String → Option String

/-- `_wrap_remote_reference(rr)`: one remote call `get_client_name`, resolve
the returned name with `import_item`, instantiate the resolved interface
with `rr`, set `client.tub` to the connector's tub, return the client.  The
second component counts the remote calls issued. -/
def wrap_remote_reference (import_item : ImportRegistry) (tubId : Nat)
    (call_get_client_name : Nat → Except Exc String) (rr : Nat) :
    Except Exc TypedClient × Nat :=
  match call_get_client_name rr with
  | .error e => (.error e, 1)
  | .ok name =>
    match import_item name with
    | none => (.error (.adapterResolutionError name), 1)
    | some iface =>
      (.ok { interface := iface, ref := rr, tub := some tubId }, 1)

/-! ### `AsyncClientConnector.get_client` and `_handle_error` -/

/-- The message of the `ClientConnectorError` raised by `_handle_error`
(Python `%s` interpolation appends `furl_file` at the end). -/
def handle_error_msg (furl_file : String) : String :=
  "Could not connect to the controller using the FURL file. " ++
  "This usually means that i) the controller was not started or " ++
  "ii) a firewall was blocking the client from connecting to the " ++
  "controller: " ++ furl_file

/-- `AsyncClientConnector._handle_error(f, furl_file)`: consolidate any
failure of the connect/adapt chain into one `ClientConnectorError`. -/
def handle_error (furl_file : String) : Exc :=
  .clientConnectorError (handle_error_msg furl_file)

/-- `AsyncClientConnector.get_client` after FURL resolution: run
`_try_to_connect` from attempt 0, adapt a successful reference with
`_wrap_remote_reference`, and route any failure of the chain through
`_handle_error` (the errback covers both the retry loop and the adapter). -/
def get_client (find_furl_result : Except Exc String)
    (env : Nat → Except Exc Nat) (import_item : ImportRegistry) (tubId : Nat)
    (call_get_client_name : Nat → Except Exc String)
    (delay : ℚ) (max_tries : Int) : Except Exc TypedClient :=
  match find_furl_result with
  | .error e => .error e
  | .ok furl_file =>
    match (try_to_connect env delay max_tries 0).result with
    | .error _ => .error (handle_error furl_file)
    | .ok rr =>
      match (wrap_remote_reference import_item tubId call_get_client_name
          rr).1 with
      | .error _ => .error (handle_error furl_file)
      | .ok client => .ok client

/-! ### Per-attempt FURL re-reading (for the retry loop)

`find_furl` from `IPython.kernel.fcutil` (called at the top of every
`_try_to_connect` attempt) is not part of the excerpt. -/

/-- Modelled from the spec: `fcutil.find_furl` reads the FURL file's current
contents; the file can exist but still be empty because the publishing
process is flushing it, and an empty/partial file yields a `FURLError`
(a retryable condition). -/
def read_furl (contents : String) : Except Exc String :=
  if contents = "" then .error (.furlError "empty FURL file") else .ok contents

/-- One `_try_to_connect` attempt body for a file-backed descriptor:
re-read the FURL file (whose contents at attempt `k` are `fileAt k`), then
call `get_reference` (abstracted as `getRef`). -/
def attempt_connect (fileAt : Nat → String)
    (getRef : String → Except Exc Nat) (k : Nat) : Except Exc Nat :=
  match read_furl (fileAt k) with
  | .error e => .error e
  | .ok furl => getRef furl

/-! ### Cluster lifecycle: `AsyncCluster.start` / `AsyncCluster.stop` -/

/-- The `AsyncCluster.state` attribute. -/
inductive ClusterState where
  | before
  | running
  | after
deriving DecidableEq

/-- `AsyncCluster.start(n)`: allowed whenever the state is not `running`;
on launcher success `_handle_start` sets the state to `running`; raises
`ClusterStateError` when already running.  Returns the call's outcome and
the resulting state. -/
def cluster_start (st : ClusterState) (launcher_start : Except Exc Unit) :
    Except Exc Unit × ClusterState :=
  if ¬ st = .running then
    match launcher_start with
    | .ok _ => (.ok (), .running)
    | .error e => (.error e, st)
  else (.error (.clusterStateError "Cluster is already running"), st)

/-- `AsyncCluster.stop()`: allowed only from `running`; on the launcher's
stop observation `_handle_stop` sets the state to `after`; raises
`ClusterStateError` otherwise. -/
def cluster_stop (st : ClusterState) (observe_stop : Except Exc Unit) :
    Except Exc Unit × ClusterState :=
  if st = .running then
    match observe_stop with
    | .ok _ => (.ok (), .after)
    | .error e => (.error e, st)
  else (.error (.clusterStateError "Cluster not running"), st)

/-! ### Blocking `ClientConnector.get_client` argument forwarding

Python values are dynamically typed; the positional binding of
`AsyncClientConnector.get_client(profile='default', cluster_dir=None,
furl_or_file=None, furl_file_name=None, ipython_dir=None, delay=DELAY,
max_tries=MAX_TRIES)` is embedded over a universal value type. -/

/-- Module-level default `DELAY = 0.2`. -/
def DELAY : ℚ := 0.2

/-- Module-level default `MAX_TRIES = 9`. -/
def MAX_TRIES : Int := 9

/-- A dynamically typed Python value (only the shapes the defaults need). -/
inductive PyVal where
  | pyNone
  | str (s : String)
  | num (q : ℚ)
  | int (i : Int)
deriving DecidableEq

/-- The bound parameters of `AsyncClientConnector.get_client`. -/
structure AsyncGetClientArgs where
  profile : PyVal
  cluster_dir : PyVal
  furl_or_file : PyVal
  furl_file_name : PyVal
  ipython_dir : PyVal
  delay : PyVal
  max_tries : PyVal
deriving DecidableEq

/-- Python positional binding for `AsyncClientConnector.get_client`: the
`i`-th positional argument binds the `i`-th parameter; missing trailing
arguments take the declared defaults. -/
def bind_async_get_client (args : List PyVal) : AsyncGetClientArgs where
  profile := args.getD 0 (.str "default")
  cluster_dir := args.getD 1 .pyNone
  furl_or_file := args.getD 2 .pyNone
  furl_file_name := args.getD 3 .pyNone
  ipython_dir := args.getD 4 .pyNone
  delay := args.getD 5 (.num DELAY)
  max_tries := args.getD 6 (.int MAX_TRIES)

/-- The positional argument list that the blocking
`ClientConnector.get_client(profile, cluster_dir, furl_or_file, ipython_dir,
delay, max_tries)` passes (via `blockingCallFromThread`) to
`AsyncClientConnector.get_client`. -/
def blocking_get_client_forward
    (profile cluster_dir furl_or_file ipython_dir delay max_tries : PyVal) :
    List PyVal :=
  [profile, cluster_dir, furl_or_file, ipython_dir, delay, max_tries]

/-! ### Helper lemmas about the retry loop -/

/-- Every delay slept by `_try_to_connect`, counted from the current call,
equals the current delay times `1.5 ^ k`. -/
theorem try_to_connect_sleeps_eq (env : Nat → Except Exc Nat) (d : ℚ)
    (mt a : Int) :
    ∀ k x, (try_to_connect env d mt a).sleeps[k]? = some x →
      x = d * 1.5 ^ k := by
  induction d, mt, a using try_to_connect.induct env with
  | case1 d mt a h1 rr h2 =>
    intro k x hx
    rw [try_to_connect] at hx
    simp [h1, h2] at hx
  | case2 d mt e h1 h2 =>
    intro k x hx
    have h2' : env (mt.toNat - 1) = Except.error e := by
      have hh : (mt - 1).toNat = mt.toNat - 1 := by omega
      rw [← hh]
      exact h2
    rw [try_to_connect] at hx
    simp [h1, h2, h2'] at hx
  | case3 d mt a h1 e h2 h3 ih =>
    intro k x hx
    rw [try_to_connect] at hx
    simp [h1, h2, h3] at hx
    match k with
    | 0 =>
      simp at hx
      simp [← hx]
    | k + 1 =>
      simp at hx
      have := ih k x hx
      rw [this]
      ring
  | case4 d mt a h1 =>
    intro k x hx
    rw [try_to_connect] at hx
    simp [h1] at hx

/-- `_try_to_connect` performs at most `max_tries - attempt` attempts. -/
theorem try_to_connect_attempts_le (env : Nat → Except Exc Nat) (d : ℚ)
    (mt a : Int) :
    (try_to_connect env d mt a).attempts ≤ (mt - a).toNat := by
  induction d, mt, a using try_to_connect.induct env with
  | case1 d mt a h1 rr h2 =>
    rw [try_to_connect]
    simp [h1, h2]
    omega
  | case2 d mt e h1 h2 =>
    have h2' : env (mt.toNat - 1) = Except.error e := by
      have hh : (mt - 1).toNat = mt.toNat - 1 := by omega
      rw [← hh]
      exact h2
    rw [try_to_connect]
    simp [h1, h2, h2']
  | case3 d mt a h1 e h2 h3 ih =>
    rw [try_to_connect]
    simp [h1, h2, h3]
    omega
  | case4 d mt a h1 =>
    rw [try_to_connect]
    simp [h1]

/-- If every attempt from the current one up to `max_tries - 1` fails, the
retry loop's result is exactly the error of the last allowed attempt. -/
theorem try_to_connect_all_fail (env : Nat → Except Exc Nat)
    (errs : Nat → Exc) (d : ℚ) (mt a : Int) :
    0 ≤ a → a < mt →
    (∀ j, a.toNat ≤ j → j < mt.toNat → env j = .error (errs j)) →
    (try_to_connect env d mt a).result = .error (errs (mt.toNat - 1)) := by
  induction d, mt, a using try_to_connect.induct env with
  | case1 d mt a h1 rr h2 =>
    intro ha hlt hfail
    have := hfail a.toNat (le_refl _) (by omega)
    rw [h2] at this
    exact absurd this (by simp)
  | case2 d mt e h1 h2 =>
    intro ha hlt hfail
    have h2' : env (mt.toNat - 1) = Except.error e := by
      have hh : (mt - 1).toNat = mt.toNat - 1 := by omega
      rw [← hh]
      exact h2
    have hst := hfail (mt.toNat - 1) (by omega) (by omega)
    rw [h2'] at hst
    have he : e = errs (mt.toNat - 1) := by
      injection hst
    rw [try_to_connect]
    simp [h1, h2, h2', he]
  | case3 d mt a h1 e h2 h3 ih =>
    intro ha hlt hfail
    rw [try_to_connect]
    simp [h1, h2, h3]
    exact ih (by omega) (by omega) (fun j hj1 hj2 => hfail j (by omega) hj2)
  | case4 d mt a h1 =>
    intro ha hlt hfail
    omega

/-- If all attempts before index `m` fail and attempt `m` succeeds with `c`
(within budget), the retry loop returns `c`. -/
theorem try_to_connect_succeeds_at (env : Nat → Except Exc Nat) (d : ℚ)
    (mt a : Int) (m c : Nat) :
    0 ≤ a → a.toNat ≤ m → (m : Int) < mt →
    (∀ j, a.toNat ≤ j → j < m → ∃ e, env j = .error e) →
    env m = .ok c →
    (try_to_connect env d mt a).result = .ok c := by
  induction d, mt, a using try_to_connect.induct env with
  | case1 d mt a h1 rr h2 =>
    intro ha ham hm hfail hsucc
    rcases Nat.lt_or_ge a.toNat m with hlt | hge
    · obtain ⟨e, he⟩ := hfail a.toNat (le_refl _) hlt
      rw [h2] at he
      exact absurd he (by simp)
    · have ham' : a.toNat = m := le_antisymm ham hge
      rw [ham', hsucc] at h2
      injection h2 with h
      rw [try_to_connect]
      simp [h1, ham', hsucc, h]
  | case2 d mt e h1 h2 =>
    intro ha ham hm hfail hsucc
    have hge : (mt - 1).toNat = m := by omega
    rw [hge, hsucc] at h2
    exact absurd h2 (by simp)
  | case3 d mt a h1 e h2 h3 ih =>
    intro ha ham hm hfail hsucc
    have hne : a.toNat ≠ m := by
      intro heq
      rw [heq, hsucc] at h2
      exact absurd h2 (by simp)
    rw [try_to_connect]
    simp [h1, h2, h3]
    exact ih (by omega) (by omega) hm
      (fun j hj1 hj2 => hfail j (by omega) hj2) hsucc
  | case4 d mt a h1 =>
    intro ha ham hm hfail hsucc
    omega

/-! ### Helper lemmas about the connection cache -/

/-- If a key has no binding in an association list, it is not among the
list's keys. -/
theorem lookup_none_not_mem_keys {l : List (String × Nat)} {g : String}
    (h : l.lookup g = none) : g ∉ l.map Prod.fst := by
  simp at h
  intro hmem
  simp only [List.mem_map] at hmem
  obtain ⟨⟨k, v⟩, hkv, hg⟩ := hmem
  exact h k v hkv hg.symm

/-- A `get_reference` call never removes or changes an existing cache
entry: the `_remote_refs` dict only grows. -/
theorem get_reference_preserves (t : String → Except Exc Nat)
    (st : ConnectorState) (g f : String) (r : Nat)
    (h : st.remote_refs.lookup f = some r) :
    ((get_reference t st g).2).remote_refs.lookup f = some r := by
  unfold get_reference
  cases hg : st.remote_refs.lookup g with
  | some ref => simpa
  | none =>
    cases ht : t g with
    | ok ref =>
      have hne : (f == g) = false := by
        simp only [beq_eq_false_iff_ne]
        intro heq
        rw [heq, hg] at h
        cases h
      simp [save_ref, List.lookup, hne, h]
    | error e => simpa

/-- Any sequence of `get_reference` calls preserves existing cache
entries. -/
theorem run_ops_preserves (ops : List ((String → Except Exc Nat) × String)) :
    ∀ (st : ConnectorState) (f : String) (r : Nat),
      st.remote_refs.lookup f = some r →
      (run_ops st ops).remote_refs.lookup f = some r := by
  induction ops with
  | nil => intro st f r h; exact h
  | cons op ops ih =>
    intro st f r h
    simp only [run_ops, List.foldl] at *
    exact ih _ f r (get_reference_preserves op.1 st op.2 f r h)

/-- A `get_reference` call on a cached furl returns the cached reference and
leaves the state (including the connect counter) untouched. -/
theorem get_reference_hit (t : String → Except Exc Nat)
    (st : ConnectorState) (f : String) (r : Nat)
    (h : st.remote_refs.lookup f = some r) :
    get_reference t st f = (.ok r, st) := by
  unfold get_reference
  simp [h]

/-- A `get_reference` call keeps the cache's keys without duplicates. -/
theorem get_reference_nodup (t : String → Except Exc Nat)
    (st : ConnectorState) (g : String)
    (h : (st.remote_refs.map Prod.fst).Nodup) :
    (((get_reference t st g).2).remote_refs.map Prod.fst).Nodup := by
  unfold get_reference
  cases hg : st.remote_refs.lookup g with
  | some ref => simpa
  | none =>
    cases ht : t g with
    | ok ref =>
      simp only [save_ref, List.map_cons, List.nodup_cons]
      exact ⟨lookup_none_not_mem_keys hg, h⟩
    | error e => simpa

/-! ### Helper lemmas about string containment -/

/-- Every list is a prefix of itself. -/
theorem isPrefixOfList_self (l : List Char) : isPrefixOfList l l = true := by
  induction l with
  | nil => rfl
  | cons a l ih => simp [isPrefixOfList, ih]

/-- A list occurs contiguously at the end of any extension of itself. -/
theorem containsSeg_append_self (pat xs : List Char) :
    containsSeg pat (xs ++ pat) = true := by
  induction xs with
  | nil =>
    cases pat with
    | nil => rfl
    | cons c cs => simp [containsSeg, isPrefixOfList_self]
  | cons x xs ih => simp [containsSeg, ih]

/-- A string contains any of its own suffixes (after an append). -/
theorem strContains_append_right (a b : String) :
    strContains (a ++ b) b = true := by
  simp only [strContains, String.data_append]
  exact containsSeg_append_self b.data a.data

/-- A prefix of a list is still a prefix after extending the list. -/
theorem isPrefixOfList_append (pat xs ys : List Char)
    (h : isPrefixOfList pat xs = true) :
    isPrefixOfList pat (xs ++ ys) = true := by
  induction pat generalizing xs with
  | nil => simp [isPrefixOfList]
  | cons a as ih =>
    cases xs with
    | nil => simp [isPrefixOfList] at h
    | cons b bs =>
      simp [isPrefixOfList] at h ⊢
      exact ⟨h.1, ih bs h.2⟩

/-- The empty pattern occurs in every list. -/
theorem containsSeg_nil (l : List Char) : containsSeg [] l = true := by
  cases l <;> simp [containsSeg, isPrefixOfList]

/-- A contiguous occurrence survives extending the list on the right. -/
theorem containsSeg_append_left (pat xs ys : List Char)
    (h : containsSeg pat xs = true) :
    containsSeg pat (xs ++ ys) = true := by
  induction xs with
  | nil =>
    cases pat with
    | nil => exact containsSeg_nil ys
    | cons c cs => simp [containsSeg, isPrefixOfList] at h
  | cons x xs ih =>
    simp only [containsSeg, Bool.or_eq_true] at h
    rcases h with h | h
    · simp only [List.cons_append, containsSeg, Bool.or_eq_true]
      exact Or.inl (isPrefixOfList_append pat (x :: xs) ys h)
    · simp only [List.cons_append, containsSeg, Bool.or_eq_true]
      exact Or.inr (ih h)

/-- A substring of `a` is a substring of `a ++ b`. -/
theorem strContains_append_of_left (a b pat : String)
    (h : containsSeg pat.data a.data = true) :
    strContains (a ++ b) pat = true := by
  simp only [strContains, String.data_append]
  exact containsSeg_append_left pat.data a.data b.data h

/-! ### Claim theorems -/

/-- C1: For every initial delay `d0 > 0` and every `max_tries ≥ 1`, the
retry loop of `_try_to_connect` waits `d0 * 1.5 ^ k` before the attempt that
follows the `k`-th failed attempt (`k` starting at 0: the `k`-th recorded
sleep is `d0 * 1.5 ^ k`), and the total number of connection attempts
performed never exceeds `max_tries`. -/
theorem c1_retry_delay_sequence_and_attempt_bound
    (env : Nat → Except Exc Nat) (d0 : ℚ) (max_tries : Int)
    (hd : 0 < d0) (hm : 1 ≤ max_tries) :
    (∀ k x, (try_to_connect env d0 max_tries 0).sleeps[k]? = some x →
      x = d0 * 1.5 ^ k) ∧
    (try_to_connect env d0 max_tries 0).attempts ≤ max_tries.toNat := by
  refine ⟨try_to_connect_sleeps_eq env d0 max_tries 0, ?_⟩
  have h := try_to_connect_attempts_le env d0 max_tries 0
  simpa using h

/-- Witness for C1 at `env ≡ failure`, `d0 = 1`, `max_tries = 3`. -/
theorem c1_retry_delay_sequence_and_attempt_bound_witness :
    (0 : ℚ) < 1 ∧ (1 : Int) ≤ 3 ∧
    ((∀ (k : Nat) (x : ℚ),
        (try_to_connect (fun j => .error (.connFail j)) 1 3 0).sleeps[k]?
          = some x → x = 1 * 1.5 ^ k) ∧
      (try_to_connect (fun j => .error (.connFail j)) 1 3 0).attempts
        ≤ (3 : Int).toNat) :=
  ⟨by norm_num, by norm_num,
    c1_retry_delay_sequence_and_attempt_bound (fun j => .error (.connFail j))
      1 3 (by norm_num) (by norm_num)⟩

/-- C2: after a first `get_reference(X)` call that connects successfully,
every later `get_reference(X)` call (whatever other calls happen in between,
and whatever the tub would now do) returns the identical cached reference and
changes nothing — in particular it issues no second underlying connect; the
cache only grows and keeps at most one entry per distinct furl. -/
theorem c2_get_reference_caches (st : ConnectorState)
    (tub1 : String → Except Exc Nat) (X : String) (c : Nat)
    (hmiss : st.remote_refs.lookup X = none) (hconn : tub1 X = .ok c) :
    (get_reference tub1 st X).1 = .ok c ∧
    ((get_reference tub1 st X).2).connects = st.connects + 1 ∧
    (∀ (ops : List ((String → Except Exc Nat) × String))
        (tub2 : String → Except Exc Nat),
      get_reference tub2 (run_ops (get_reference tub1 st X).2 ops) X =
        (.ok c, run_ops (get_reference tub1 st X).2 ops)) ∧
    (∀ (t : String → Except Exc Nat) (st' : ConnectorState) (g f : String)
        (r : Nat), st'.remote_refs.lookup f = some r →
      ((get_reference t st' g).2).remote_refs.lookup f = some r) ∧
    (∀ (t : String → Except Exc Nat) (st' : ConnectorState) (g : String),
      (st'.remote_refs.map Prod.fst).Nodup →
      (((get_reference t st' g).2).remote_refs.map Prod.fst).Nodup) := by
  have hstep : get_reference tub1 st X =
      (.ok c, save_ref { st with connects := st.connects + 1 } c X) := by
    unfold get_reference
    simp [hmiss, hconn]
  have hcached :
      ((get_reference tub1 st X).2).remote_refs.lookup X = some c := by
    rw [hstep]
    simp [save_ref, List.lookup]
  refine ⟨by rw [hstep], by rw [hstep, save_ref], ?_, get_reference_preserves,
    get_reference_nodup⟩
  intro ops tub2
  exact get_reference_hit tub2 _ X c (run_ops_preserves ops _ X c hcached)

/-- Witness for C2 at the empty cache, `tub1 "pb://x" = ok 7`. -/
theorem c2_get_reference_caches_witness :
    (ConnectorState.mk [] 0).remote_refs.lookup "pb://x" = none ∧
    (fun _ => Except.ok (ε := Exc) 7) "pb://x" = .ok 7 ∧
    ((get_reference (fun _ => .ok 7) (ConnectorState.mk [] 0) "pb://x").1
        = .ok 7 ∧
      ((get_reference (fun _ => .ok 7) (ConnectorState.mk [] 0)
          "pb://x").2).connects = (ConnectorState.mk [] 0).connects + 1 ∧
      (∀ (ops : List ((String → Except Exc Nat) × String))
          (tub2 : String → Except Exc Nat),
        get_reference tub2
            (run_ops (get_reference (fun _ => .ok 7)
              (ConnectorState.mk [] 0) "pb://x").2 ops) "pb://x" =
          (.ok 7, run_ops (get_reference (fun _ => .ok 7)
            (ConnectorState.mk [] 0) "pb://x").2 ops)) ∧
      (∀ (t : String → Except Exc Nat) (st' : ConnectorState) (g f : String)
          (r : Nat), st'.remote_refs.lookup f = some r →
        ((get_reference t st' g).2).remote_refs.lookup f = some r) ∧
      (∀ (t : String → Except Exc Nat) (st' : ConnectorState) (g : String),
        (st'.remote_refs.map Prod.fst).Nodup →
        (((get_reference t st' g).2).remote_refs.map Prod.fst).Nodup)) :=
  ⟨rfl, rfl,
    c2_get_reference_caches (ConnectorState.mk [] 0) (fun _ => .ok 7)
      "pb://x" 7 rfl rfl⟩

/-- C4: called with `max_tries ≤ 0`, the attempt index (0) already reaches
`max_tries`, so `_try_to_connect` performs no attempt and fails with the
retry-budget-exhausted `ClientConnectorError`. -/
theorem c4_zero_budget_fails (env : Nat → Except Exc Nat) (d : ℚ)
    (max_tries : Int) (h : max_tries ≤ 0) :
    try_to_connect env d max_tries 0 =
      { result := .error (.clientConnectorError (max_tries_msg max_tries)),
        sleeps := [], attempts := 0 } := by
  rw [try_to_connect]
  rw [dif_neg (by omega)]

/-- Witness for C4 at `max_tries = 0`. -/
theorem c4_zero_budget_fails_witness :
    (0 : Int) ≤ 0 ∧
    try_to_connect (fun j => .error (.connFail j)) 1 0 0 =
      { result := .error (.clientConnectorError (max_tries_msg 0)),
        sleeps := [], attempts := 0 } :=
  ⟨le_refl 0, c4_zero_budget_fails (fun j => .error (.connFail j)) 1 0
    (le_refl 0)⟩

/-- C5: when the failure happens on the last allowed attempt (index
`max_tries - 1`), the retry loop propagates that failure as-is: its result
is exactly the last attempt's own error, unwrapped. -/
theorem c5_last_failure_propagates_as_is (env : Nat → Except Exc Nat)
    (errs : Nat → Exc) (d : ℚ) (max_tries : Int) (hm : 1 ≤ max_tries)
    (hfail : ∀ j, j < max_tries.toNat → env j = .error (errs j)) :
    (try_to_connect env d max_tries 0).result =
      .error (errs (max_tries.toNat - 1)) :=
  try_to_connect_all_fail env errs d max_tries 0 (le_refl 0) (by omega)
    (fun j _ hj2 => hfail j hj2)

/-- Witness for C5 at `max_tries = 2`, each attempt `j` failing with
`connFail j`. -/
theorem c5_last_failure_propagates_as_is_witness :
    (1 : Int) ≤ 2 ∧
    (∀ j, j < (2 : Int).toNat →
      (fun j => Except.error (α := Nat) (Exc.connFail j)) j =
        .error (.connFail j)) ∧
    (try_to_connect (fun j => .error (.connFail j)) 1 2 0).result =
      .error (.connFail ((2 : Int).toNat - 1)) :=
  ⟨by norm_num, fun j _ => rfl,
    c5_last_failure_propagates_as_is (fun j => .error (.connFail j))
      (fun j => .connFail j) 1 2 (by norm_num) (fun j _ => rfl)⟩

/-- C9: with a file-backed descriptor, each attempt re-reads the FURL file:
if the file is empty through attempt `k` and holds a valid furl (for which
`get_reference` succeeds) from attempt `k+1`, the retry loop connects
successfully on attempt `k+1`. -/
theorem c9_file_reread_recovers (fileAt : Nat → String)
    (getRef : String → Except Exc Nat) (d : ℚ) (max_tries : Int)
    (k c : Nat) (furl : String)
    (hempty : ∀ j, j ≤ k → fileAt j = "")
    (hvalid : fileAt (k + 1) = furl) (hne : furl ≠ "")
    (hget : getRef furl = .ok c)
    (hbudget : ((k + 1 : Nat) : Int) < max_tries) :
    (try_to_connect (attempt_connect fileAt getRef) d max_tries 0).result =
      .ok c := by
  refine try_to_connect_succeeds_at (attempt_connect fileAt getRef) d
    max_tries 0 (k + 1) c (le_refl 0) (by omega) hbudget ?_ ?_
  · intro j hj1 hj2
    refine ⟨.furlError "empty FURL file", ?_⟩
    have hj : fileAt j = "" := hempty j (by omega)
    simp [attempt_connect, read_furl, hj]
  · simp [attempt_connect, read_furl, hvalid, hne, hget]

/-- C3 counterexample: FURL file `ipcontroller-mec.furl`, `max_tries = 3`,
every attempt failing.  `get_client` does deliver one consolidated
`ClientConnectorError`, but its message does not contain the performed
attempt count (the digit `3` occurs nowhere in it), contradicting the
claim. -/
theorem c3_counterexample_no_attempt_count :
    get_client (.ok "ipcontroller-mec.furl") (fun j => .error (.connFail j))
        (fun _ => none) 0 (fun _ => .error (.remoteError 0)) 1 3 =
      .error (.clientConnectorError
        (handle_error_msg "ipcontroller-mec.furl")) ∧
    strContains (handle_error_msg "ipcontroller-mec.furl") "3" = false := by
  constructor
  · have hres := try_to_connect_all_fail (fun j => .error (.connFail j))
      (fun j => .connFail j) 1 3 0 (le_refl 0) (by norm_num)
      (fun j _ _ => rfl)
    simp [get_client, hres, handle_error]
  · decide

/-- C3 (amended): for every `get_client` call whose retry budget (of at
least one attempt) is exhausted without a successful connection, the caller
receives exactly one consolidated `ClientConnectorError` whose message names
the descriptor source (the FURL file) and lists both plausible root causes
(controller not started; firewall blocking) without asserting which one
holds; the message does not include the performed attempt count. -/
theorem c3_amended_consolidated_error (furl_file : String)
    (env : Nat → Except Exc Nat) (errs : Nat → Exc)
    (import_item : ImportRegistry) (tubId : Nat)
    (call_get_client_name : Nat → Except Exc String) (d : ℚ)
    (max_tries : Int) (hm : 1 ≤ max_tries)
    (hfail : ∀ j, j < max_tries.toNat → env j = .error (errs j)) :
    get_client (.ok furl_file) env import_item tubId call_get_client_name d
        max_tries =
      .error (.clientConnectorError (handle_error_msg furl_file)) ∧
    strContains (handle_error_msg furl_file) furl_file = true ∧
    strContains (handle_error_msg furl_file)
      "the controller was not started" = true ∧
    strContains (handle_error_msg furl_file)
      "a firewall was blocking the client" = true := by
  have hres := try_to_connect_all_fail env errs d max_tries 0 (le_refl 0)
    (by omega) (fun j _ hj2 => hfail j hj2)
  refine ⟨by simp [get_client, hres, handle_error], ?_, ?_, ?_⟩
  · exact strContains_append_right _ furl_file
  · exact strContains_append_of_left _ furl_file _ (by decide)
  · exact strContains_append_of_left _ furl_file _ (by decide)

/-- Witness for the amended C3 at `furl_file = "f.furl"`, `max_tries = 2`,
each attempt `j` failing with `connFail j`. -/
theorem c3_amended_consolidated_error_witness :
    (1 : Int) ≤ 2 ∧
    (∀ j, j < (2 : Int).toNat →
      (fun j => Except.error (α := Nat) (Exc.connFail j)) j =
        .error (.connFail j)) ∧
    (get_client (.ok "f.furl") (fun j => .error (.connFail j))
        (fun _ => none) 0 (fun _ => .error (.remoteError 0)) 1 2 =
      .error (.clientConnectorError (handle_error_msg "f.furl")) ∧
    strContains (handle_error_msg "f.furl") "f.furl" = true ∧
    strContains (handle_error_msg "f.furl")
      "the controller was not started" = true ∧
    strContains (handle_error_msg "f.furl")
      "a firewall was blocking the client" = true) :=
  ⟨by norm_num, fun j _ => rfl,
    c3_amended_consolidated_error "f.furl" (fun j => .error (.connFail j))
      (fun j => .connFail j) (fun _ => none) 0
      (fun _ => .error (.remoteError 0)) 1 2 (by norm_num) (fun j _ => rfl)⟩

/-- C6: given a connected capability, the Client Adapter issues exactly one
remote `get_client_name` call; when the returned fully-qualified name
resolves locally it instantiates the resolved type with the capability as
constructor argument and attaches the shared tub to the instance before
returning; when the name is unresolvable locally, the call fails with an
`AdapterResolutionError`. -/
theorem c6_wrap_remote_reference_adapts (import_item : ImportRegistry)
    (tubId rr : Nat) (call_get_client_name : Nat → Except Exc String)
    (name : String) (hname : call_get_client_name rr = .ok name) :
    (wrap_remote_reference import_item tubId call_get_client_name rr).2
      = 1 ∧
    (∀ iface, import_item name = some iface →
      (wrap_remote_reference import_item tubId call_get_client_name rr).1 =
        .ok { interface := iface, ref := rr, tub := some tubId }) ∧
    (import_item name = none →
      (wrap_remote_reference import_item tubId call_get_client_name rr).1 =
        .error (.adapterResolutionError name)) := by
  refine ⟨?_, ?_, ?_⟩
  · simp only [wrap_remote_reference, hname]
    cases import_item name <;> rfl
  · intro iface hif
    simp [wrap_remote_reference, hname, hif]
  · intro hif
    simp [wrap_remote_reference, hname, hif]

/-- Witness for C6 at a remote call returning `"A.B.C"`, resolvable by the
registry that maps exactly that name. -/
theorem c6_wrap_remote_reference_adapts_witness :
    (fun _ => Except.ok (ε := Exc) "A.B.C") 2 = .ok "A.B.C" ∧
    ((wrap_remote_reference
        (fun s => if s = "A.B.C" then some "A.B.C" else none) 1
        (fun _ => .ok "A.B.C") 2).2 = 1 ∧
    (∀ iface,
      (fun s => if s = "A.B.C" then some "A.B.C" else none) "A.B.C"
        = some iface →
      (wrap_remote_reference
        (fun s => if s = "A.B.C" then some "A.B.C" else none) 1
        (fun _ => .ok "A.B.C") 2).1 =
        .ok { interface := iface, ref := 2, tub := some 1 }) ∧
    ((fun s => if s = "A.B.C" then some "A.B.C" else none) "A.B.C" = none →
      (wrap_remote_reference
        (fun s => if s = "A.B.C" then some "A.B.C" else none) 1
        (fun _ => .ok "A.B.C") 2).1 =
        .error (.adapterResolutionError "A.B.C"))) :=
  ⟨rfl,
    c6_wrap_remote_reference_adapts
      (fun s => if s = "A.B.C" then some "A.B.C" else none) 1 2
      (fun _ => .ok "A.B.C") "A.B.C" rfl⟩

/-- C7: when the explicit `furl_or_file` argument yields no valid result
(absent or invalid) and `furl_file_name` is absent, `_find_furl` fails
immediately with a `FURLError` and attempts neither the cluster-directory
nor the profile strategy. -/
theorem c7_missing_furl_file_name_fails_fast (env : FurlEnv)
    (profile cluster_dir furl_or_file ipython_dir : Option String)
    (hbad : furl_or_file = none ∨
      ∃ f, furl_or_file = some f ∧ env.is_valid_furl_or_file f = false) :
    (find_furl env profile cluster_dir furl_or_file none ipython_dir).1 =
      .error (.furlError
        "A furl_file_name must be provided if furl_or_file is not") ∧
    Strategy.byClusterDir ∉
      (find_furl env profile cluster_dir furl_or_file none ipython_dir).2 ∧
    Strategy.byProfile ∉
      (find_furl env profile cluster_dir furl_or_file none ipython_dir).2 := by
  rcases hbad with h | ⟨f, hf, hv⟩
  · subst h
    simp [find_furl, find_furl_rest]
  · subst hf
    simp [find_furl, find_furl_rest, hv]

/-- Witness for C7 at a concrete environment that validates nothing and an
invalid explicit argument. -/
theorem c7_missing_furl_file_name_fails_fast_witness :
    (some "bad" = (none : Option String) ∨
      ∃ f, some "bad" = some f ∧
        (FurlEnv.mk (fun _ => false) (fun _ => .ok "sec")
          (fun _ _ => .ok "sec") (fun _ => .ok ())
          "ihome").is_valid_furl_or_file f = false) ∧
    ((find_furl (FurlEnv.mk (fun _ => false) (fun _ => .ok "sec")
        (fun _ _ => .ok "sec") (fun _ => .ok ()) "ihome")
        (some "default") (some "cdir") (some "bad") none none).1 =
      .error (.furlError
        "A furl_file_name must be provided if furl_or_file is not") ∧
    Strategy.byClusterDir ∉
      (find_furl (FurlEnv.mk (fun _ => false) (fun _ => .ok "sec")
        (fun _ _ => .ok "sec") (fun _ => .ok ()) "ihome")
        (some "default") (some "cdir") (some "bad") none none).2 ∧
    Strategy.byProfile ∉
      (find_furl (FurlEnv.mk (fun _ => false) (fun _ => .ok "sec")
        (fun _ _ => .ok "sec") (fun _ => .ok ()) "ihome")
        (some "default") (some "cdir") (some "bad") none none).2) :=
  ⟨Or.inr ⟨"bad", rfl, rfl⟩,
    c7_missing_furl_file_name_fails_fast
      (FurlEnv.mk (fun _ => false) (fun _ => .ok "sec")
        (fun _ _ => .ok "sec") (fun _ => .ok ()) "ihome")
      (some "default") (some "cdir") (some "bad") none
      (Or.inr ⟨"bad", rfl, rfl⟩)⟩

/-- C8: `stop()` in state `before` or `after` fails with `ClusterStateError`
and leaves the state unchanged; `start()` in state `running` fails with
`ClusterStateError`; a successful `start()` followed by a successful
`stop()` leaves the cluster in state `after`. -/
theorem c8_cluster_lifecycle (launcher observed : Except Exc Unit) :
    cluster_stop .before observed =
      (.error (.clusterStateError "Cluster not running"), .before) ∧
    cluster_stop .after observed =
      (.error (.clusterStateError "Cluster not running"), .after) ∧
    cluster_start .running launcher =
      (.error (.clusterStateError "Cluster is already running"),
        .running) ∧
    cluster_start .before (.ok ()) = (.ok (), .running) ∧
    cluster_stop .running (.ok ()) = (.ok (), .after) := by
  refine ⟨?_, ?_, ?_, rfl, rfl⟩ <;> simp [cluster_stop, cluster_start]

/-- C10: the blocking `ClientConnector.get_client` forwards its six
arguments positionally to `AsyncClientConnector.get_client`, whose fourth
positional parameter is `furl_file_name`; hence `ipython_dir` is received as
`furl_file_name`, `delay` as `ipython_dir`, `max_tries` as `delay`, and the
async `max_tries` always takes its default `MAX_TRIES`: the blocking
signature is not parameter-aligned with the asynchronous one. -/
theorem c10_blocking_get_client_misaligned
    (profile cluster_dir furl_or_file ipython_dir delay max_tries : PyVal) :
    bind_async_get_client
        (blocking_get_client_forward profile cluster_dir furl_or_file
          ipython_dir delay max_tries) =
      { profile := profile, cluster_dir := cluster_dir,
        furl_or_file := furl_or_file, furl_file_name := ipython_dir,
        ipython_dir := delay, delay := max_tries,
        max_tries := .int MAX_TRIES } :=
  rfl

/-- Witness for C9: file empty on attempt 0, valid from attempt 1,
`max_tries = 3`. -/
theorem c9_file_reread_recovers_witness :
    (∀ j, j ≤ 0 → (fun j => if j = 0 then "" else "pb://x") j = "") ∧
    (fun j => if j = 0 then "" else "pb://x") (0 + 1) = "pb://x" ∧
    "pb://x" ≠ "" ∧
    (fun _ => Except.ok (ε := Exc) 5) "pb://x" = .ok 5 ∧
    ((0 + 1 : Nat) : Int) < 3 ∧
    (try_to_connect
      (attempt_connect (fun j => if j = 0 then "" else "pb://x")
        (fun _ => .ok 5)) 1 3 0).result = .ok 5 :=
  ⟨fun j hj => by simp [Nat.le_zero.mp hj], rfl, by decide, rfl, by norm_num,
    c9_file_reread_recovers (fun j => if j = 0 then "" else "pb://x")
      (fun _ => .ok 5) 1 3 0 5 "pb://x"
      (fun j hj => by simp [Nat.le_zero.mp hj]) rfl (by decide) rfl
      (by norm_num)⟩

end ClientConnector
